import Mathlib

/-!
Verification of the action-dispatch and protocol-translation layer of the
magi-ollama plugin (src/src/lib.rs), shallowly embedded in Lean.

JSON values (serde_json::Value / the plugin's DataType) are modelled by the
inductive `JVal`.  External HTTP traffic is modelled by a `Transport`
oracle mapping a request to `some` parsed-JSON response, or `none` for an
infrastructure fault (transport failure or a non-JSON body); each operation
returns its result together with the list of HTTP requests it issued, and
a result of `none` models a propagated invocation-level failure (Rust's
`Err` on `FnResult`).  The host's `agent_receive` batch is passed in as an
explicit list, and `agent_send` calls are returned as a list of `SendRec`.
-/

/-- JSON values, as in serde_json: null, booleans, numbers, strings,
arrays and objects (objects as ordered association lists). -/
inductive JVal where
  | null : JVal
  | bool : Bool → JVal
  | num : Int → JVal
  | str : String → JVal
  | arr : List JVal → JVal
  | obj : List (String × JVal) → JVal

/-- `Value::get(key)`: field lookup on an object, `none` on any other
variant (lib.rs uses this via `input.get("...")`). -/
def JVal.get : JVal → String → Option JVal
  | .obj fields, k => fields.lookup k
  | _, _ => none

/-- `Value::as_str()`: `some` only on strings. -/
def JVal.asStr : JVal → Option String
  | .str s => some s
  | _ => none

/-- `Value::as_bool()`: `some` only on booleans. -/
def JVal.asBool : JVal → Option Bool
  | .bool b => some b
  | _ => none

/-- An outgoing HTTP request: URL, method, headers, optional JSON body
(lib.rs builds these with `HttpRequest::new(...)`). -/
structure HttpReq where
  url : String
  method : String
  headers : List (String × String)
  body : Option JVal

/-- One `magi_pdk::agent_send(recipient, payload)` call. -/
structure SendRec where
  recipient : String
  payload : JVal

/-- The external HTTP transport: request to parsed JSON response;
`none` models transport failure or a response body that is not JSON. -/
abbrev Transport := HttpReq → Option JVal

/-- lib.rs line 111: the default system prompt used when `system` is absent. -/
def defaultSystemPrompt : String := "You are a helpful assistant."

/-- lib.rs lines 105-120: resolve the outgoing `messages` value.  A present
`messages` field is used verbatim; otherwise a string `prompt` (possibly
empty - the code does not check emptiness here) synthesizes the two-element
`[system, user]` sequence; otherwise `none` (validation failure). -/
def chatMessagesOf (input : JVal) : Option JVal :=
  match input.get "messages" with
  | some msgs => some msgs
  | none =>
    match (input.get "prompt").bind JVal.asStr with
    | some prompt =>
      some (JVal.arr
        [JVal.obj [("role", JVal.str "system"),
                   ("content", JVal.str
                     (((input.get "system").bind JVal.asStr).getD defaultSystemPrompt))],
         JVal.obj [("role", JVal.str "user"), ("content", JVal.str prompt)]])
    | none => none

/-- lib.rs lines 133-137: the POST request to `<base_url>/api/chat`. -/
def chatReq (base_url : String) (body : JVal) : HttpReq :=
  { url := base_url ++ "/api/chat", method := "POST",
    headers := [("Content-Type", "application/json")], body := some body }

/-- lib.rs lines 104-153: the chat operation.  Returns the result envelope
(`none` = propagated infrastructure failure) and the requests issued. -/
def chat (t : Transport) (base_url model : String) (input : JVal) :
    Option JVal × List HttpReq :=
  match chatMessagesOf input with
  | none => (some (JVal.obj [("error", JVal.str "prompt or messages required")]), [])
  | some messages =>
    let use_model := ((input.get "model").bind JVal.asStr).getD model
    let req := chatReq base_url
      (JVal.obj [("model", JVal.str use_model), ("messages", messages),
                 ("stream", JVal.bool false)])
    match t req with
    | none => (none, [req])
    | some data =>
      (some (JVal.obj
        [("content", JVal.str
           ((((data.get "message").bind (fun m => m.get "content")).bind JVal.asStr).getD "")),
         ("model", JVal.str (((data.get "model").bind JVal.asStr).getD use_model)),
         ("done", JVal.bool (((data.get "done").bind JVal.asBool).getD true)),
         ("total_duration", (data.get "total_duration").getD JVal.null),
         ("eval_count", (data.get "eval_count").getD JVal.null)]),
       [req])

/-- lib.rs lines 177-180: the POST request to `<base_url>/api/generate`. -/
def generateReq (base_url : String) (body : JVal) : HttpReq :=
  { url := base_url ++ "/api/generate", method := "POST",
    headers := [("Content-Type", "application/json")], body := some body }

/-- lib.rs lines 155-190: the generate operation. -/
def generate (t : Transport) (base_url model : String) (input : JVal) :
    Option JVal × List HttpReq :=
  let prompt := ((input.get "prompt").bind JVal.asStr).getD ""
  if prompt = "" then
    (some (JVal.obj [("error", JVal.str "prompt is required")]), [])
  else
    let use_model := ((input.get "model").bind JVal.asStr).getD model
    let req := generateReq base_url
      (JVal.obj [("model", JVal.str use_model), ("prompt", JVal.str prompt),
                 ("stream", JVal.bool false)])
    match t req with
    | none => (none, [req])
    | some data =>
      (some (JVal.obj
        [("response", JVal.str (((data.get "response").bind JVal.asStr).getD "")),
         ("model", JVal.str (((data.get "model").bind JVal.asStr).getD use_model)),
         ("done", JVal.bool (((data.get "done").bind JVal.asBool).getD true))]),
       [req])

/-- lib.rs lines 205-208: the POST request to `<base_url>/api/embed`.
Note the body's model is always the configured default `model`. -/
def embedReq (base_url model text : String) : HttpReq :=
  { url := base_url ++ "/api/embed", method := "POST",
    headers := [("Content-Type", "application/json")],
    body := some (JVal.obj [("model", JVal.str model), ("input", JVal.str text)]) }

/-- lib.rs lines 192-217: the embeddings operation.  The request-level
`model` field is never read; `model` is the configured default. -/
def embeddings (t : Transport) (base_url model : String) (input : JVal) :
    Option JVal × List HttpReq :=
  let text := ((input.get "text").bind JVal.asStr).getD ""
  if text = "" then
    (some (JVal.obj [("error", JVal.str "text is required")]), [])
  else
    let req := embedReq base_url model text
    match t req with
    | none => (none, [req])
    | some data =>
      (some (JVal.obj
        [("embeddings", (data.get "embeddings").getD JVal.null),
         ("model", JVal.str (((data.get "model").bind JVal.asStr).getD model))]),
       [req])

/-- lib.rs lines 220-222: the GET request to `<base_url>/api/tags`. -/
def tagsReq (base_url : String) : HttpReq :=
  { url := base_url ++ "/api/tags", method := "GET",
    headers := [("Accept", "application/json")], body := none }

/-- lib.rs lines 219-226: the list_models operation — the parsed external
response is returned unmodified. -/
def list_models (t : Transport) (base_url : String) : Option JVal × List HttpReq :=
  match t (tagsReq base_url) with
  | none => (none, [tagsReq base_url])
  | some data => (some data, [tagsReq base_url])

/-- lib.rs line 233: `msg.get("from").and_then(as_str).unwrap_or("unknown")`. -/
def pollFromOf (msg : JVal) : String :=
  ((msg.get "from").bind JVal.asStr).getD "unknown"

/-- lib.rs lines 234-238: extract `payload.prompt` as a string, defaulting
to the empty string (the payload itself defaults to JSON null). -/
def pollPromptOf (msg : JVal) : String :=
  ((((msg.get "payload").getD JVal.null).get "prompt").bind JVal.asStr).getD ""

/-- lib.rs lines 232-252: the body of the poll loop, one recursive step per
inbound message, in delivery order.  Returns (results, http calls, sends).
An empty prompt skips the message; a failed chat call (first component
`none`) records no result and no send. -/
def pollLoop (t : Transport) (base_url model : String) :
    List JVal → List JVal × List HttpReq × List SendRec
  | [] => ([], [], [])
  | msg :: rest =>
    let tail := pollLoop t base_url model rest
    if pollPromptOf msg = "" then tail
    else
      let c := chat t base_url model (JVal.obj [("prompt", JVal.str (pollPromptOf msg))])
      match c.1 with
      | none => (tail.1, c.2 ++ tail.2.1, tail.2.2)
      | some response =>
        let content := ((response.get "content").bind JVal.asStr).getD ""
        (JVal.obj [("from", JVal.str (pollFromOf msg)),
                   ("response", JVal.str content)] :: tail.1,
         c.2 ++ tail.2.1,
         SendRec.mk (pollFromOf msg)
           (JVal.obj [("response", JVal.str content)]) :: tail.2.2)

/-- lib.rs lines 228-257: the poll operation over the batch `inbox`
returned by `agent_receive(10)` (empty on receive failure).  Returns the
summary envelope, the HTTP calls made, and the relay sends issued. -/
def poll_messages (t : Transport) (inbox : List JVal) (base_url model : String) :
    JVal × List HttpReq × List SendRec :=
  let r := pollLoop t base_url model inbox
  (JVal.obj [("processed", JVal.num r.1.length), ("results", JVal.arr r.1)],
   r.2.1, r.2.2)

/-- lib.rs lines 72-76: the action string, defaulting to "chat" when the
field is absent or not a string. -/
def actionOf (input : JVal) : String :=
  ((input.get "action").bind JVal.asStr).getD "chat"

/-- lib.rs lines 79-82: the resolved base URL. -/
def resolveBaseUrl (config : JVal) : String :=
  ((config.get "ollama_url").bind JVal.asStr).getD "http://localhost:11434"

/-- lib.rs lines 83-86: the resolved default model. -/
def resolveModel (config : JVal) : String :=
  ((config.get "model").bind JVal.asStr).getD "llama3.2"

/-- Wrap an operation result that issues no agent sends. -/
def withNoSends (r : Option JVal × List HttpReq) :
    Option JVal × List HttpReq × List SendRec :=
  (r.1, r.2, [])

/-- Wrap a poll result (poll never fails at the invocation level). -/
def pollWrap (r : JVal × List HttpReq × List SendRec) :
    Option JVal × List HttpReq × List SendRec :=
  (some r.1, r.2.1, r.2.2)

/-- lib.rs lines 70-98: the process entry point / action dispatcher. -/
def process (t : Transport) (config : JVal) (inbox : List JVal) (input : JVal) :
    Option JVal × List HttpReq × List SendRec :=
  match actionOf input with
  | "chat" => withNoSends (chat t (resolveBaseUrl config) (resolveModel config) input)
  | "generate" => withNoSends (generate t (resolveBaseUrl config) (resolveModel config) input)
  | "embeddings" => withNoSends (embeddings t (resolveBaseUrl config) (resolveModel config) input)
  | "list_models" => withNoSends (list_models t (resolveBaseUrl config))
  | "poll" => pollWrap (poll_messages t inbox (resolveBaseUrl config) (resolveModel config))
  | a => (some (JVal.obj [("error", JVal.str ("unknown action: " ++ a))]), [], [])

/-- The per-message summary entry the poll loop produces for a message:
`none` when the message is skipped (empty prompt or failed chat call). -/
def pollEntryOf (t : Transport) (base_url model : String) (msg : JVal) : Option JVal :=
  if pollPromptOf msg = "" then none
  else
    match (chat t base_url model (JVal.obj [("prompt", JVal.str (pollPromptOf msg))])).1 with
    | none => none
    | some response =>
      some (JVal.obj [("from", JVal.str (pollFromOf msg)),
                      ("response", JVal.str (((response.get "content").bind JVal.asStr).getD ""))])

/-- The relay send the poll loop issues for a message, `none` when skipped. -/
def pollSendOf (t : Transport) (base_url model : String) (msg : JVal) : Option SendRec :=
  if pollPromptOf msg = "" then none
  else
    match (chat t base_url model (JVal.obj [("prompt", JVal.str (pollPromptOf msg))])).1 with
    | none => none
    | some response =>
      some (SendRec.mk (pollFromOf msg)
        (JVal.obj [("response", JVal.str (((response.get "content").bind JVal.asStr).getD ""))]))

theorem asStr_str (s : String) : JVal.asStr (JVal.str s) = some s := rfl

theorem get_obj_cons_ne (k0 : String) (v : JVal) (fields : List (String × JVal))
    (k : String) (h : k ≠ k0) :
    (JVal.obj ((k0, v) :: fields)).get k = (JVal.obj fields).get k := by
  have hb : (k == k0) = false := beq_eq_false_iff_ne.mpr h
  simp [JVal.get, List.lookup, hb]

theorem chatMessagesOf_congr (i1 i2 : JVal)
    (hm : i1.get "messages" = i2.get "messages")
    (hp : i1.get "prompt" = i2.get "prompt")
    (hs : i1.get "system" = i2.get "system") :
    chatMessagesOf i1 = chatMessagesOf i2 := by
  simp only [chatMessagesOf, hm, hp, hs]

theorem chat_congr (t : Transport) (base_url model : String) (i1 i2 : JVal)
    (hm : i1.get "messages" = i2.get "messages")
    (hp : i1.get "prompt" = i2.get "prompt")
    (hs : i1.get "system" = i2.get "system")
    (hmo : i1.get "model" = i2.get "model") :
    chat t base_url model i1 = chat t base_url model i2 := by
  simp only [chat, chatMessagesOf_congr i1 i2 hm hp hs, hmo]

theorem pollLoop_spec (t : Transport) (base_url model : String) (msgs : List JVal) :
    (pollLoop t base_url model msgs).1 = msgs.filterMap (pollEntryOf t base_url model) ∧
    (pollLoop t base_url model msgs).2.2 = msgs.filterMap (pollSendOf t base_url model) := by
  induction msgs with
  | nil => exact ⟨rfl, rfl⟩
  | cons msg rest ih =>
    by_cases hp : pollPromptOf msg = ""
    · simp [pollLoop, pollEntryOf, pollSendOf, hp, List.filterMap_cons, ih.1, ih.2]
    · rcases hc : (chat t base_url model
          (JVal.obj [("prompt", JVal.str (pollPromptOf msg))])).1 with _ | response
      · simp [pollLoop, pollEntryOf, pollSendOf, hp, hc, List.filterMap_cons, ih.1, ih.2]
      · simp [pollLoop, pollEntryOf, pollSendOf, hp, hc, List.filterMap_cons, ih.1, ih.2]

/-- Claim C1 (amended): for every request envelope with no `messages` field
and whose `prompt` field is absent or not a string, the chat operation
returns exactly the envelope with error "prompt or messages required" and
performs no external HTTP call.  (The original claim also covered an empty
string `prompt`; the code accepts an empty string prompt and proceeds to
the HTTP call, see the counterexample.) -/
theorem chat_missing_input_error (t : Transport) (base_url model : String) (input : JVal)
    (h1 : input.get "messages" = none)
    (h2 : (input.get "prompt").bind JVal.asStr = none) :
    chat t base_url model input =
      (some (JVal.obj [("error", JVal.str "prompt or messages required")]), []) := by
  simp only [chat, chatMessagesOf, h1, h2]

theorem chat_missing_input_error_witness :
    chat (fun _ => none) "u" "m" (JVal.obj []) =
      (some (JVal.obj [("error", JVal.str "prompt or messages required")]), []) :=
  chat_missing_input_error (fun _ => none) "u" "m" (JVal.obj []) rfl rfl

/-- Counterexample to claim C1 as stated: on the envelope with `prompt` the
empty string (and no `messages`), chat does not return the error envelope
with an empty call list — it synthesizes messages and performs the HTTP
call (here against a transport answering with the empty object). -/
theorem chat_empty_prompt_not_rejected :
    chat (fun _ => some (JVal.obj [])) "u" "m" (JVal.obj [("prompt", JVal.str "")]) ≠
      (some (JVal.obj [("error", JVal.str "prompt or messages required")]),
       ([] : List HttpReq)) :=
  fun h => Nat.succ_ne_zero 0
    (congrArg (fun p : Option JVal × List HttpReq => p.2.length) h)

/-- Claim C2: the poll operation processes the batch in delivery order;
empty-prompt messages and messages whose chat call fails are skipped
silently (no results entry, no relay send, no abort); `processed` is the
number of successes and `results` has one entry per success in processing
order, as does the relay-send trace. -/
theorem poll_messages_filterMap_spec (t : Transport) (msgs : List JVal)
    (base_url model : String) :
    (poll_messages t msgs base_url model).1 =
      JVal.obj [("processed", JVal.num (msgs.filterMap (pollEntryOf t base_url model)).length),
                ("results", JVal.arr (msgs.filterMap (pollEntryOf t base_url model)))] ∧
    (poll_messages t msgs base_url model).2.2 =
      msgs.filterMap (pollSendOf t base_url model) := by
  have h := pollLoop_spec t base_url model msgs
  constructor
  · show JVal.obj [("processed", JVal.num (pollLoop t base_url model msgs).1.length),
        ("results", JVal.arr (pollLoop t base_url model msgs).1)] = _
    rw [h.1]
  · show (pollLoop t base_url model msgs).2.2 = _
    rw [h.2]

/-- Claim C3: for every request whose `action` is a string other than the
five known actions, process returns exactly the envelope with error
"unknown action: <action>" (literal action echoed), no HTTP calls, no sends. -/
theorem process_unknown_action (t : Transport) (config : JVal) (inbox : List JVal)
    (input : JVal) (s : String)
    (ha : (input.get "action").bind JVal.asStr = some s)
    (h1 : s ≠ "chat") (h2 : s ≠ "generate") (h3 : s ≠ "embeddings")
    (h4 : s ≠ "list_models") (h5 : s ≠ "poll") :
    process t config inbox input =
      (some (JVal.obj [("error", JVal.str ("unknown action: " ++ s))]), [], []) := by
  have hact : actionOf input = s := by simp [actionOf, ha]
  simp only [process, hact]

theorem process_unknown_action_witness :
    process (fun _ => none) (JVal.obj []) [] (JVal.obj [("action", JVal.str "frobnicate")]) =
      (some (JVal.obj [("error", JVal.str "unknown action: frobnicate")]), [], []) :=
  process_unknown_action (fun _ => none) (JVal.obj []) []
    (JVal.obj [("action", JVal.str "frobnicate")]) "frobnicate" rfl
    (by decide) (by decide) (by decide) (by decide) (by decide)

/-- Claim C4: for every request envelope with no `action` field, process
behaves exactly as on the same envelope with `action` set to "chat". -/
theorem process_action_absent_defaults_to_chat (t : Transport) (config : JVal)
    (inbox : List JVal) (fields : List (String × JVal))
    (h : (JVal.obj fields).get "action" = none) :
    process t config inbox (JVal.obj fields) =
      process t config inbox (JVal.obj (("action", JVal.str "chat") :: fields)) := by
  have ha1 : actionOf (JVal.obj fields) = "chat" := by simp [actionOf, h]
  have ha2 : actionOf (JVal.obj (("action", JVal.str "chat") :: fields)) = "chat" := by
    simp [actionOf, JVal.get, List.lookup, JVal.asStr]
  have hc : chat t (resolveBaseUrl config) (resolveModel config) (JVal.obj fields) =
      chat t (resolveBaseUrl config) (resolveModel config)
        (JVal.obj (("action", JVal.str "chat") :: fields)) := by
    apply chat_congr <;>
      exact (get_obj_cons_ne "action" (JVal.str "chat") fields _ (by decide)).symm
  simp only [process, ha1, ha2, hc]

theorem process_action_absent_defaults_to_chat_witness :
    process (fun _ => none) (JVal.obj []) [] (JVal.obj [("prompt", JVal.str "Hi")]) =
      process (fun _ => none) (JVal.obj []) []
        (JVal.obj [("action", JVal.str "chat"), ("prompt", JVal.str "Hi")]) :=
  process_action_absent_defaults_to_chat (fun _ => none) (JVal.obj []) []
    [("prompt", JVal.str "Hi")] rfl

/-- Claim C5: for every request with no `messages`, a string `prompt` p and
no `system`, chat issues exactly one request whose body is the object with
the request model, the synthesized two-element [system, user] message
sequence (default system prompt), and stream false. -/
theorem chat_synthesizes_system_user_messages (t : Transport) (base_url model : String)
    (input : JVal) (p : String)
    (h1 : input.get "messages" = none)
    (h2 : input.get "prompt" = some (JVal.str p))
    (h3 : input.get "system" = none) :
    (chat t base_url model input).2 =
      [chatReq base_url
        (JVal.obj [("model", JVal.str (((input.get "model").bind JVal.asStr).getD model)),
                   ("messages", JVal.arr
                     [JVal.obj [("role", JVal.str "system"),
                                ("content", JVal.str defaultSystemPrompt)],
                      JVal.obj [("role", JVal.str "user"), ("content", JVal.str p)]]),
                   ("stream", JVal.bool false)])] := by
  simp only [chat, chatMessagesOf, h1, h2, h3, asStr_str, Option.some_bind, Option.none_bind,
    Option.getD_none]
  split <;> rfl

theorem chat_synthesizes_system_user_messages_witness :
    (chat (fun _ => none) "u" "m" (JVal.obj [("prompt", JVal.str "Hi")])).2 =
      [chatReq "u"
        (JVal.obj [("model", JVal.str "m"),
                   ("messages", JVal.arr
                     [JVal.obj [("role", JVal.str "system"),
                                ("content", JVal.str defaultSystemPrompt)],
                      JVal.obj [("role", JVal.str "user"), ("content", JVal.str "Hi")]]),
                   ("stream", JVal.bool false)])] :=
  chat_synthesizes_system_user_messages (fun _ => none) "u" "m"
    (JVal.obj [("prompt", JVal.str "Hi")]) "Hi" rfl rfl rfl

/-- Claim C6: for every request with both `messages` and `prompt`, chat
uses `messages` verbatim as the outgoing body's messages, and the `prompt`
and `system` fields have no effect: any envelope with the same `messages`
and `model` fields yields the identical outcome. -/
theorem chat_messages_precedence (t : Transport) (base_url model : String)
    (input msgs pv : JVal)
    (hm : input.get "messages" = some msgs)
    (hp : input.get "prompt" = some pv) :
    (∀ input2 : JVal, input2.get "messages" = some msgs →
        input2.get "model" = input.get "model" →
        chat t base_url model input2 = chat t base_url model input) ∧
    (chat t base_url model input).2 =
      [chatReq base_url
        (JVal.obj [("model", JVal.str (((input.get "model").bind JVal.asStr).getD model)),
                   ("messages", msgs), ("stream", JVal.bool false)])] := by
  constructor
  · intro input2 h2m h2mo
    simp only [chat, chatMessagesOf, hm, h2m, h2mo]
  · simp only [chat, chatMessagesOf, hm]
    split <;> rfl

theorem chat_messages_precedence_witness :
    (chat (fun _ => none) "u" "m"
        (JVal.obj [("messages", JVal.arr []), ("prompt", JVal.str "x")])).2 =
      [chatReq "u" (JVal.obj [("model", JVal.str "m"), ("messages", JVal.arr []),
                              ("stream", JVal.bool false)])] :=
  (chat_messages_precedence (fun _ => none) "u" "m"
    (JVal.obj [("messages", JVal.arr []), ("prompt", JVal.str "x")])
    (JVal.arr []) (JVal.str "x") rfl rfl).2

/-- Claim C7: the embeddings operation depends on the request only through
its `text` field (so a request-level `model` has no effect); an absent,
non-string or empty `text` yields exactly the "text is required" error with
no HTTP call; otherwise the single outgoing request carries the configured
default model in its body, and the normalization falls back to that same
default model when the response has no string `model`. -/
theorem embeddings_model_and_text_validation (t : Transport) (base_url model : String)
    (input : JVal) :
    (∀ input2 : JVal, input2.get "text" = input.get "text" →
        embeddings t base_url model input2 = embeddings t base_url model input) ∧
    (((input.get "text").bind JVal.asStr).getD "" = "" →
        embeddings t base_url model input =
          (some (JVal.obj [("error", JVal.str "text is required")]), [])) ∧
    (∀ s : String, ((input.get "text").bind JVal.asStr).getD "" = s → s ≠ "" →
        (embeddings t base_url model input).2 = [embedReq base_url model s] ∧
        ∀ data : JVal, t (embedReq base_url model s) = some data →
          (embeddings t base_url model input).1 =
            some (JVal.obj [("embeddings", (data.get "embeddings").getD JVal.null),
                            ("model", JVal.str (((data.get "model").bind JVal.asStr).getD model))])) := by
  refine ⟨?_, ?_, ?_⟩
  · intro input2 h2
    simp only [embeddings, h2]
  · intro h
    simp [embeddings, h]
  · intro s hs hne
    constructor
    · simp only [embeddings, hs, if_neg hne]
      split <;> rfl
    · intro data hdata
      simp only [embeddings, hs, if_neg hne, hdata]

theorem embeddings_model_and_text_validation_witness :
    embeddings (fun _ => none) "u" "m" (JVal.obj []) =
      (some (JVal.obj [("error", JVal.str "text is required")]), []) :=
  (embeddings_model_and_text_validation (fun _ => none) "u" "m" (JVal.obj [])).2.1 rfl

/-- Claim C8: for every list_models invocation whose external call returns
a body that parses as JSON, the returned result is exactly that parsed
response, unmodified. -/
theorem list_models_passthrough (t : Transport) (base_url : String) (data : JVal)
    (h : t (tagsReq base_url) = some data) :
    list_models t base_url = (some data, [tagsReq base_url]) := by
  simp only [list_models, h]

theorem list_models_passthrough_witness :
    list_models (fun _ => some (JVal.obj [("models", JVal.arr [])])) "u" =
      (some (JVal.obj [("models", JVal.arr [])]), [tagsReq "u"]) :=
  list_models_passthrough (fun _ => some (JVal.obj [("models", JVal.arr [])])) "u"
    (JVal.obj [("models", JVal.arr [])]) rfl

/-- Claim C9: for every request whose `action` field is present but not a
string, process routes to the chat operation (no unknown-action error). -/
theorem process_nonstring_action_routes_to_chat (t : Transport) (config : JVal)
    (inbox : List JVal) (input v : JVal)
    (h1 : input.get "action" = some v) (h2 : v.asStr = none) :
    process t config inbox input =
      withNoSends (chat t (resolveBaseUrl config) (resolveModel config) input) := by
  have hact : actionOf input = "chat" := by simp [actionOf, h1, h2]
  simp only [process, hact]

theorem process_nonstring_action_routes_to_chat_witness :
    process (fun _ => none) (JVal.obj []) [] (JVal.obj [("action", JVal.num 1)]) =
      withNoSends (chat (fun _ => none) (resolveBaseUrl (JVal.obj []))
        (resolveModel (JVal.obj [])) (JVal.obj [("action", JVal.num 1)])) :=
  process_nonstring_action_routes_to_chat (fun _ => none) (JVal.obj []) []
    (JVal.obj [("action", JVal.num 1)]) (JVal.num 1) rfl rfl

/-- Claim C10: every poll result envelope has `processed` equal to the
length of its `results` sequence. -/
theorem poll_processed_eq_results_length (t : Transport) (msgs : List JVal)
    (base_url model : String) :
    ∃ rs : List JVal, (poll_messages t msgs base_url model).1 =
      JVal.obj [("processed", JVal.num rs.length), ("results", JVal.arr rs)] :=
  ⟨(pollLoop t base_url model msgs).1, rfl⟩
